import Mathlib

/-!
Shallow embedding of the Compliance & Notification Engine of the
course-management-platform repository.

The embedding follows the source files:
* `src/models/Module.js` (second concatenated file): the `Notification`
  Sequelize model — fields and defaults.
* `src/services/notificationService.js`: `createNotification`,
  `sendReminderToFacilitators`, `sendDeadlineAlertToManagers`,
  `getUserNotifications`, `markAsRead`, `markAsDelivered`, `getUnreadCount`.
* `src/routes/notifications.js`: the `GET /`, `PUT /:id/read` and
  `PUT /read-all` handlers.
* `src/middleware/errorHandler.js` (second and third concatenated files):
  `NotificationWorker` (start/stop/checkForNotifications), the Redis-queue
  scanner `checkOverdueLogs`, the dispatcher `processNotification` with its
  per-type handlers, and `sendEmail`.

The relational store is modelled as a `List Notification`; a Sequelize
`Model.update(values, {where})` is modelled as `updateWhere`: it returns the
number of matched rows and the list with the values assigned on every row
matching the where clause, which is exactly what the MySQL UPDATE issued by
Sequelize does.  Timestamps are integers (milliseconds); `new Date()` at the
call site becomes an explicit `now` argument.
-/

/-- The `Notification` model of `src/models/Module.js` (tableName
`notifications`).  `metadata` is a JSON column; the source only ever stores
the keys `allocationId`, `moduleName`, `facilitatorName` (and nothing else on
the reminder/deadline paths), so it is modelled by those optional fields. -/
structure Notification where
  id : Nat
  recipientId : Nat
  recipientType : String
  type : String
  title : String
  message : String
  relatedEntityId : Option Nat := none
  relatedEntityType : Option String := none
  isRead : Bool := false
  isDelivered : Bool := false
  scheduledFor : Option Int := none
  deliveredAt : Option Int := none
  readAt : Option Int := none
  metaAllocationId : Option Nat := none
  metaWeekNumber : Option Nat := none
  metaModuleName : Option String := none
  metaFacilitatorName : Option String := none
  createdAt : Int := 0
  deriving Repr, DecidableEq

/-- Sequelize `Model.update(values, \x7b where \x7d)`: assigns the values on every row
matching the where clause and returns `[affectedCount]` (first component)
together with the updated table (second component). -/
def updateWhere (p : Notification → Bool) (assign : Notification → Notification)
    (db : List Notification) : Nat × List Notification :=
  (db.countP p, db.map (fun n => if p n then assign n else n))

/-- Embeds `NotificationService.markAsRead(notificationId, userId)`
(`src/services/notificationService.js:145`): update `{isRead: true, readAt:
new Date()}` where `{id: notificationId, recipientId: userId}`.  Note the
where clause does not test `isRead`. -/
def markAsRead (db : List Notification) (notificationId userId : Nat)
    (now : Int) : Nat × List Notification :=
  updateWhere (fun n => n.id == notificationId && n.recipientId == userId)
    (fun n => { n with isRead := true, readAt := some now }) db

/-- Embeds `NotificationService.markAsDelivered(notificationId)`
(`src/services/notificationService.js:163`): update `{isDelivered: true,
deliveredAt: new Date()}` where `{id: notificationId}`. -/
def markAsDelivered (db : List Notification) (notificationId : Nat)
    (now : Int) : Nat × List Notification :=
  updateWhere (fun n => n.id == notificationId)
    (fun n => { n with isDelivered := true, deliveredAt := some now }) db

/-- The `PUT /read-all` handler (`src/routes/notifications.js:176`):
update `{isRead: true, readAt: new Date()}` where `{recipientId, recipientType,
isRead: false}`. -/
def markAllRead (db : List Notification) (userId : Nat) (userType : String)
    (now : Int) : Nat × List Notification :=
  updateWhere
    (fun n => n.recipientId == userId && n.recipientType == userType
      && n.isRead == false)
    (fun n => { n with isRead := true, readAt := some now }) db

/-- Embeds `NotificationService.getUnreadCount(userId, userType)`
(`src/services/notificationService.js:178`): `count` where `{recipientId,
recipientType, isRead: false}`. -/
def getUnreadCount (db : List Notification) (userId : Nat)
    (userType : String) : Nat :=
  db.countP (fun n => n.recipientId == userId && n.recipientType == userType
    && n.isRead == false)

/-- A sample Ledger row that is already read (`isRead = true`,
`readAt = some 5`), used as concrete input for the `markAsRead` and
`markAllRead` behaviour. -/
def readNotif : Notification :=
  { id := 1, recipientId := 2, recipientType := "facilitator",
    type := "reminder", title := "Activity Log Reminder",
    message := "Please submit your activity log.",
    relatedEntityId := some 7, relatedEntityType := some "allocation",
    isRead := true, readAt := some 5, createdAt := 3 }

/-- A freshly created Ledger row: unread and undelivered. -/
def freshNotif : Notification :=
  { id := 1, recipientId := 2, recipientType := "facilitator",
    type := "reminder", title := "Activity Log Reminder",
    message := "Please submit your activity log.", createdAt := 3 }

/-- Erase the delivery state pair, keeping every other field: used to state
that an operation touches nothing outside (`isDelivered`, `deliveredAt`). -/
def stripDelivery (n : Notification) : Notification :=
  { n with isDelivered := false, deliveredAt := none }

/-- Erase the read state pair, keeping every other field. -/
def stripRead (n : Notification) : Notification :=
  { n with isRead := false, readAt := none }

theorem countP_map_of_pres {p : Notification → Bool}
    {g : Notification → Notification} (h : ∀ n, p (g n) = p n)
    (db : List Notification) : (db.map g).countP p = db.countP p := by
  induction db with
  | nil => rfl
  | cons n rest ih =>
      simp [List.countP_cons, ih, h]

theorem map_ite_comp {p : Notification → Bool}
    {f g : Notification → Notification}
    (hpf : ∀ n, p (f n) = p n) (hgf : ∀ n, p n = true → g (f n) = g n)
    (db : List Notification) :
    (db.map (fun n => if p n then f n else n)).map
        (fun n => if p n then g n else n)
      = db.map (fun n => if p n then g n else n) := by
  induction db with
  | nil => rfl
  | cons n rest ih =>
      by_cases h : p n
      · simp only [List.map_cons, h, if_pos, ih, hpf n ▸ h, hgf n h]
      · simp [List.map_cons, if_neg h, ih]

/-- A `course_allocations` row as consumed by the worker
(`src/middleware/errorHandler.js`, second and third files): the sweep only
reads `id`, `facilitatorId`, `isActive`, `createdAt` and the included
`module`/`facilitator` names. -/
structure Allocation where
  id : Nat
  facilitatorId : Nat
  moduleName : String
  facilitatorName : String
  isActive : Bool
  createdAt : Int := 0
  deriving Repr, DecidableEq

/-- An `activity_trackers` row as consumed by the worker: `allocationId`,
`weekNumber`, `isActive`. -/
structure ActivityLog where
  allocationId : Nat
  weekNumber : Nat
  isActive : Bool
  deriving Repr, DecidableEq

/-- Embeds `NotificationService.createNotification(spec)`
(`src/services/notificationService.js:4`): `Notification.create` persists the
record; the fresh primary key is modelled as the current table length. -/
def createNotification (db : List Notification) (spec : Notification) :
    List Notification :=
  db ++ [{ spec with id := db.length }]

/-- The reminder record built by
`NotificationService.sendReminderToFacilitators`
(`src/services/notificationService.js:43`): type `reminder`, addressed to the
facilitator of the allocation, `relatedEntityId = allocation.id`, metadata
`{allocationId, moduleName, facilitatorName}` — note: no `weekNumber`. -/
def reminderSpec (a : Allocation) (now : Int) : Notification :=
  { id := 0, recipientId := a.facilitatorId, recipientType := "facilitator",
    type := "reminder", title := "Activity Log Reminder",
    message := "Please submit your activity log. Deadline is approaching.",
    relatedEntityId := some a.id, relatedEntityType := some "allocation",
    metaAllocationId := some a.id, metaModuleName := some a.moduleName,
    metaFacilitatorName := some a.facilitatorName, createdAt := now }

/-- Embeds `NotificationService.sendReminderToFacilitators(allocations)`
(`src/services/notificationService.js:36`): for each allocation it loads
`allocation.getActivityLogs()` (all activity logs of the allocation) and
creates a reminder when that list is empty.  No Ledger lookup for an existing
reminder happens before `createNotification`. -/
def sendReminderToFacilitators (db : List Notification)
    (allocations : List Allocation) (logs : List ActivityLog) (now : Int) :
    List Notification :=
  allocations.foldl
    (fun acc a =>
      if (logs.filter (fun l => l.allocationId == a.id)).isEmpty then
        createNotification acc (reminderSpec a now)
      else acc) db

/-- The deadline alert built by
`NotificationService.sendDeadlineAlertToManagers`
(`src/services/notificationService.js:99`): type `deadline`, addressed to the
manager of the facilitator. -/
def deadlineSpec (a : Allocation) (managerId : Nat) (now : Int) :
    Notification :=
  { id := 0, recipientId := managerId, recipientType := "manager",
    type := "deadline", title := "Deadline Alert",
    message := "Facilitator has not submitted activity log. Deadline passed.",
    relatedEntityId := some a.id, relatedEntityType := some "allocation",
    metaAllocationId := some a.id, metaModuleName := some a.moduleName,
    metaFacilitatorName := some a.facilitatorName, createdAt := now }

/-- Embeds `NotificationService.sendDeadlineAlertToManagers(allocations)`
(`src/services/notificationService.js:93`): per allocation it evaluates
`allocation.getFacilitator().then(f => f.getManager())` and then dereferences
`manager.id`.  When the facilitator has no manager, `getManager()` resolves to
`null` and `manager.id` throws a TypeError, which aborts the loop: the
notifications created for the earlier allocations persist, the remaining
allocations are not processed.  The Boolean result records whether the loop
ended by throwing. -/
def sendDeadlineAlertToManagers (db : List Notification)
    (allocations : List Allocation) (managerOf : Nat → Option Nat)
    (now : Int) : List Notification × Bool :=
  match allocations with
  | [] => (db, false)
  | a :: rest =>
      match managerOf a.facilitatorId with
      | none => (db, true)
      | some m =>
          sendDeadlineAlertToManagers
            (createNotification db (deadlineSpec a m now)) rest managerOf now

/-- Embeds `NotificationWorker.checkForNotifications`
(`src/middleware/errorHandler.js:157`, second file): loads the active
allocations, collects those with no active activity log, sends facilitator
reminders for them, then sends deadline alerts to the managers of the
allocations created more than a week before `now`.  The whole body sits in a
try/catch whose handler only logs, so a thrown error ends the sweep but is
swallowed. -/
def checkForNotifications (db : List Notification)
    (allocations : List Allocation) (logs : List ActivityLog)
    (managerOf : Nat → Option Nat) (now : Int) : List Notification :=
  let active := allocations.filter (fun a => a.isActive)
  let withoutLogs := active.filter (fun a =>
    (logs.filter (fun l => l.allocationId == a.id && l.isActive)).isEmpty)
  let db1 := sendReminderToFacilitators db withoutLogs logs now
  let overdue := active.filter (fun a => a.createdAt < now - 604800000)
  (sendDeadlineAlertToManagers db1 overdue managerOf now).1

/-- Week computation of `checkOverdueLogs` (`src/middleware/errorHandler.js:478`,
third file): `Math.ceil((new Date() - new Date(year, 0, 1)) / (7*24*60*60*1000))`.
`elapsedMs` is the non-negative number of milliseconds since the start of the
calendar year; `Math.ceil` of a non-negative integer division is modelled as
`(elapsedMs + 604799999) / 604800000` in `Nat`. -/
def currentWeek (elapsedMs : Nat) : Nat :=
  (elapsedMs + 604799999) / 604800000

/-- The transient dispatch intent pushed on the Redis list `notifications`
(`src/middleware/errorHandler.js:498`): `{type, facilitatorId, allocationId,
weekNumber, timestamp}`. -/
structure Intent where
  type : String
  facilitatorId : Nat
  allocationId : Nat
  weekNumber : Nat
  timestamp : Int := 0
  deriving Repr, DecidableEq

/-- Embeds `checkOverdueLogs` (`src/middleware/errorHandler.js:476`, third file):
computes the current week, loads the allocations with `isActive = true`, and
for each one with no active activity log for `(allocation.id, currentWeek)`
pushes a `REMINDER_FACILITATOR` intent, followed — when `currentWeek > 2` —
by an `ALERT_MANAGER` intent.  The result lists the intents in the order they
are enqueued. -/
def checkOverdueLogs (allocations : List Allocation)
    (logs : List ActivityLog) (elapsedMs : Nat) (now : Int) : List Intent :=
  let wk := currentWeek elapsedMs
  (allocations.filter (fun a => a.isActive)).flatMap (fun a =>
    if logs.any (fun l =>
        l.allocationId == a.id && l.weekNumber == wk && l.isActive) then []
    else
      { type := "REMINDER_FACILITATOR", facilitatorId := a.facilitatorId,
        allocationId := a.id, weekNumber := wk, timestamp := now } ::
      (if 2 < wk then
        [{ type := "ALERT_MANAGER", facilitatorId := a.facilitatorId,
           allocationId := a.id, weekNumber := wk, timestamp := now }]
      else []))

/-- A `managers` row as consumed by the dispatcher: `id`, `name`, `email`. -/
structure Manager where
  id : Nat
  name : String
  email : String
  deriving Repr, DecidableEq

/-- A `facilitators` row as consumed by the dispatcher. -/
structure Facilitator where
  id : Nat
  name : String
  email : String
  deriving Repr, DecidableEq

/-- One attempted outbound email, as produced by `sendEmail`
(`src/middleware/errorHandler.js:301`, third file): `sendEmail` catches any
transport error and returns `{success: false}` instead of throwing. -/
structure Email where
  toAddr : String
  template : String
  success : Bool
  deriving Repr, DecidableEq

/-- Read-only collaborators of the dispatcher: `Facilitator.findByPk`,
`CourseAllocation.findByPk` (with the `module` and `manager` associations
resolved by `managerOfAllocation`), and whether the SMTP transport succeeds. -/
structure DispatchEnv where
  facilitators : List Facilitator
  allocations : List Allocation
  managerOfAllocation : Nat → Option Manager
  transportOk : Bool

/-- Embeds `sendEmail(to, template, data)`: invokes the transport and returns a
success flag; a transport error is caught and reported as `success: false`. -/
def sendEmail (env : DispatchEnv) (toAddr : String) (template : String) : Email :=
  { toAddr := toAddr, template := template, success := env.transportOk }

/-- Embeds `handleReminderFacilitator` (`src/middleware/errorHandler.js:413`):
resolves the facilitator and the allocation; if either is missing it warns
and returns, else emails the facilitator.  The result is the list of emails
attempted. -/
def handleReminderFacilitator (env : DispatchEnv) (i : Intent) : List Email :=
  match env.facilitators.find? (fun f => f.id == i.facilitatorId) with
  | none => []
  | some f =>
      match env.allocations.find? (fun a => a.id == i.allocationId) with
      | none => []
      | some _ => [sendEmail env f.email "reminderFacilitator"]

/-- Embeds `handleAlertManager` (`src/middleware/errorHandler.js:444`): resolves the
allocation and the facilitator; if the allocation is missing it returns; if
the facilitator lookup yields `null` the later `facilitator.name` dereference
throws and is caught by the own catch of the handler (no email); if the
manager of the allocation has an email, the manager is emailed. -/
def handleAlertManager (env : DispatchEnv) (i : Intent) : List Email :=
  match env.allocations.find? (fun a => a.id == i.allocationId) with
  | none => []
  | some a =>
      match env.facilitators.find? (fun f => f.id == i.facilitatorId) with
      | none => []
      | some _ =>
          match env.managerOfAllocation a.id with
          | none => []
          | some m => [sendEmail env m.email "alertManager"]

/-- Embeds `handleActivityLogCreated` (`src/middleware/errorHandler.js:351`). -/
def handleActivityLogCreated (env : DispatchEnv) (i : Intent) : List Email :=
  match env.allocations.find? (fun a => a.id == i.allocationId) with
  | none => []
  | some a =>
      match env.managerOfAllocation a.id with
      | none => []
      | some m => [sendEmail env m.email "activityLogCreated"]

/-- Embeds `handleActivityLogUpdated` (`src/middleware/errorHandler.js:381`). -/
def handleActivityLogUpdated (env : DispatchEnv) (i : Intent) : List Email :=
  match env.allocations.find? (fun a => a.id == i.allocationId) with
  | none => []
  | some a =>
      match env.facilitators.find? (fun f => f.id == i.facilitatorId) with
      | none => []
      | some _ =>
          match env.managerOfAllocation a.id with
          | none => []
          | some m => [sendEmail env m.email "activityLogUpdated"]

/-- Embeds `processNotification(notification)` (`src/middleware/errorHandler.js:322`):
dispatches on `type`; an unknown type only logs a warning.  Its own try/catch
swallows handler errors.  None of the branches reads or writes the
`notifications` table: in particular `markAsDelivered` is never invoked. -/
def processNotification (env : DispatchEnv) (i : Intent) : List Email :=
  if i.type == "ACTIVITY_LOG_CREATED" then handleActivityLogCreated env i
  else if i.type == "ACTIVITY_LOG_UPDATED" then handleActivityLogUpdated env i
  else if i.type == "REMINDER_FACILITATOR" then handleReminderFacilitator env i
  else if i.type == "ALERT_MANAGER" then handleAlertManager env i
  else []

/-- The shared state the drain tick operates on: the Redis list
`notifications` (`lpush` prepends, so the head is the newest intent and
`rpop` takes the last element), the durable Ledger, and the log of attempted
emails. -/
structure SystemState where
  queue : List Intent
  db : List Notification
  sentEmails : List Email
  deriving Repr

/-- One dispatcher tick of `startNotificationWorker`
(`src/middleware/errorHandler.js:527`, third file): `rpop` one intent (if
any) and `processNotification` it.  A failed intent is not pushed back; the
Ledger is not touched. -/
def drainTick (env : DispatchEnv) (st : SystemState) : SystemState :=
  match st.queue.getLast? with
  | none => st
  | some i =>
      { st with queue := st.queue.dropLast,
                sentEmails := st.sentEmails ++ processNotification env i }

/-- The scheduler state of `NotificationWorker`
(`src/middleware/errorHandler.js:122`, second file): `isRunning` and the
live interval timer (`none` when no timer is scheduled or it has been
cancelled by `clearInterval`). -/
structure NotificationWorker where
  isRunning : Bool
  interval : Option Nat
  deriving Repr, DecidableEq

namespace NotificationWorker

/-- Embeds `NotificationWorker.start()` (`src/middleware/errorHandler.js:128`): when
already running it logs a warning and returns (no second timer); otherwise it
sets `isRunning`, runs one check, and schedules the interval timer.  The
Boolean reports whether the already-running warning was logged. -/
def start (w : NotificationWorker) (timerId : Nat) :
    NotificationWorker × Bool :=
  if w.isRunning then (w, true)
  else ({ isRunning := true, interval := some timerId }, false)

/-- Embeds `NotificationWorker.stop()` (`src/middleware/errorHandler.js:144`): when
not running it logs a warning and returns; otherwise it clears `isRunning`
and cancels the interval timer with `clearInterval`. -/
def stop (w : NotificationWorker) : NotificationWorker × Bool :=
  if w.isRunning then ({ isRunning := false, interval := none }, false)
  else (w, true)

/-- The `SIGTERM` handler (`src/middleware/errorHandler.js:223`): calls
`notificationWorker.stop()`. -/
def onSigterm (w : NotificationWorker) : NotificationWorker × Bool := stop w

/-- The `SIGINT` handler (`src/middleware/errorHandler.js:228`): calls
`notificationWorker.stop()`. -/
def onSigint (w : NotificationWorker) : NotificationWorker × Bool := stop w

end NotificationWorker

/-- The ordering by `createdAt` descending (`order: [[createdAt, DESC]]`) of
`NotificationService.getUserNotifications`
(`src/services/notificationService.js:136`): `a` comes no later than `b` in
the result when `a` was created no earlier than `b`. -/
def newerFirst (a b : Notification) : Prop := b.createdAt ≤ a.createdAt

instance : DecidableRel newerFirst := fun a b =>
  inferInstanceAs (Decidable (b.createdAt ≤ a.createdAt))

instance : IsTotal Notification newerFirst :=
  ⟨fun a b => le_total b.createdAt a.createdAt⟩

instance : IsTrans Notification newerFirst :=
  ⟨fun _ _ _ h h' => le_trans h' h⟩

/-- Embeds `NotificationService.getUserNotifications` with options \x7blimit,
offset, unreadOnly})` (`src/services/notificationService.js:122`): `findAll`
with the where clause `{recipientId, recipientType}` plus `isRead: false`
when `unreadOnly`, ordered by `createdAt DESC`, with SQL `OFFSET offset
LIMIT limit`. -/
def getUserNotifications (db : List Notification) (userId : Nat)
    (userType : String) (limit offset : Nat) (unreadOnly : Bool) :
    List Notification :=
  let rows := db.filter (fun n =>
    n.recipientId == userId && n.recipientType == userType
      && (!unreadOnly || n.isRead == false))
  ((List.insertionSort newerFirst rows).drop offset).take limit

/-- The `GET /` handler of `src/routes/notifications.js:56`.  The
express-validator chain bounds `limit` to `1..100` and `offset` to `0..`,
and the `validateRequest` middleware (`src/databaseSetup.js`, second
concatenated file: when `validationResult(req)` is non-empty it answers 400
with the messages the chain attached, else calls `next()`) rejects an
out-of-range parameter before the handler runs; the error value carries the
per-field message attached by `.withMessage` in the chain.  On success the
handler returns the page together with `unreadCount`, which is computed by
`NotificationService.getUnreadCount` without the pagination parameters. -/
def listNotifications (db : List Notification) (userId : Nat)
    (userType : String) (limit offset : Int) (unreadOnly : Bool) :
    Except String (List Notification × Nat) :=
  if limit < 1 ∨ 100 < limit then
    .error "Limit must be between 1 and 100"
  else if offset < 0 then
    .error "Offset must be a positive integer"
  else
    .ok (getUserNotifications db userId userType limit.toNat offset.toNat
      unreadOnly, getUnreadCount db userId userType)

/-- An unread Ledger row for the same recipient as `readNotif`, created
later (`createdAt = 10`). -/
def unreadNotif : Notification :=
  { id := 2, recipientId := 2, recipientType := "facilitator",
    type := "alert", title := "Alert", message := "m",
    isRead := false, createdAt := 10 }

/-- A concrete active allocation with no activity logs. -/
def allocA : Allocation :=
  { id := 1, facilitatorId := 10, moduleName := "Math",
    facilitatorName := "Fay", isActive := true, createdAt := 0 }

/-- A second concrete active allocation, whose facilitator has a manager. -/
def allocB : Allocation :=
  { id := 2, facilitatorId := 20, moduleName := "Bio",
    facilitatorName := "Gus", isActive := true, createdAt := 0 }

/-- Facilitator→manager relation in which facilitator `20` reports to
manager `5` and facilitator `10` has no manager. -/
def mgrOfB : Nat → Option Nat := fun fid => if fid == 20 then some 5 else none

/-- Current-week activity logs for both concrete allocations. -/
def logsB : List ActivityLog :=
  [{ allocationId := 1, weekNumber := 1, isActive := true },
   { allocationId := 2, weekNumber := 1, isActive := true }]

theorem markAsDelivered_fst (db : List Notification) (i : Nat) (t : Int) :
    (markAsDelivered db i t).1 = db.countP (fun n => n.id == i) := rfl

theorem markAsDelivered_snd (db : List Notification) (i : Nat) (t : Int) :
    (markAsDelivered db i t).2
      = db.map (fun n => if n.id == i then
          { n with isDelivered := true, deliveredAt := some t } else n) := rfl

theorem markAllRead_fst (db : List Notification) (u : Nat) (ty : String)
    (t : Int) :
    (markAllRead db u ty t).1
      = db.countP (fun n => n.recipientId == u && n.recipientType == ty
          && n.isRead == false) := rfl

theorem markAllRead_snd (db : List Notification) (u : Nat) (ty : String)
    (t : Int) :
    (markAllRead db u ty t).2
      = db.map (fun n => if n.recipientId == u && n.recipientType == ty
            && n.isRead == false then
          { n with isRead := true, readAt := some t } else n) := rfl

theorem markAsRead_fst (db : List Notification) (i u : Nat) (t : Int) :
    (markAsRead db i u t).1
      = db.countP (fun n => n.id == i && n.recipientId == u) := rfl

theorem markAsRead_snd (db : List Notification) (i u : Nat) (t : Int) :
    (markAsRead db i u t).2
      = db.map (fun n => if n.id == i && n.recipientId == u then
          { n with isRead := true, readAt := some t } else n) := rfl

theorem map_ite_id {p : Notification → Bool} {f : Notification → Notification}
    (db : List Notification) (h : ∀ n ∈ db, p n = false) :
    db.map (fun n => if p n then f n else n) = db := by
  induction db with
  | nil => rfl
  | cons n rest ih =>
      simp [h n (by simp), ih (fun m hm => h m (by simp [hm]))]

theorem map_map_pres {β : Type} {g : Notification → β}
    {h : Notification → Notification} (hc : ∀ n, g (h n) = g n)
    (db : List Notification) : (db.map h).map g = db.map g := by
  induction db with
  | nil => rfl
  | cons n rest ih => simp [hc, ih]

theorem processNotification_success (env : DispatchEnv) (i : Intent) :
    ∀ e ∈ processNotification env i, e.success = env.transportOk := by
  intro e he
  unfold processNotification handleActivityLogCreated handleActivityLogUpdated
    handleReminderFacilitator handleAlertManager at he
  repeat' split at he
  all_goals simp_all [sendEmail]

/-- C2, counterexample.  The claim says `markRead` no-ops and returns false
on an already-read notification, leaving `readAt` unchanged.  On the
already-read row `readNotif` (readAt = 5), `markAsRead` reports 1 affected
row — the route therefore answers success, not the already-read no-op — and
overwrites `readAt` with the new call time 9. -/
theorem c2_already_read_is_updated_again :
    (markAsRead [readNotif] 1 2 9).1 = 1 ∧
    (markAsRead [readNotif] 1 2 9).1 ≠ 0 ∧
    (markAsRead [readNotif] 1 2 9).2.map Notification.readAt = [some 9] ∧
    (markAsRead [readNotif] 1 2 9).2.map Notification.readAt ≠ [some 5] := by
  refine ⟨rfl, by decide, rfl, by decide⟩

/-- C2 (amended): `markAsRead(id, recipientId)` enforces ownership at this
layer — if no row has both the id and the recipient, it returns 0 and leaves
the table unchanged — and any owned row is set to `isRead = true` with
`readAt` set to the call time, whether or not it was already read.  Calling
it twice yields `isRead = true` both times, but the second call reports the
same affected count as the first (it does not return false) and overwrites
`readAt` with the time of the second call: the final table is as if only the
second call had run. -/
theorem c2_markRead_contract (db : List Notification) (i u : Nat)
    (t t' : Int) :
    ((∀ n ∈ db, ¬(n.id = i ∧ n.recipientId = u)) →
      markAsRead db i u t = (0, db))
    ∧ (∀ n ∈ db, n.id = i → n.recipientId = u →
        { n with isRead := true, readAt := some t } ∈ (markAsRead db i u t).2)
    ∧ (markAsRead (markAsRead db i u t).2 i u t').1 = (markAsRead db i u t).1
    ∧ (markAsRead (markAsRead db i u t).2 i u t').2
        = (markAsRead db i u t').2 := by
  refine ⟨?_, ?_, ?_, ?_⟩
  · intro h
    unfold markAsRead updateWhere
    have hfalse : ∀ n ∈ db,
        (n.id == i && n.recipientId == u) = false := by
      intro n hn
      have := h n hn
      simp only [Bool.and_eq_false_iff, beq_eq_false_iff_ne, ne_eq]
      by_cases hid : n.id = i
      · exact Or.inr (fun hr => this ⟨hid, hr⟩)
      · exact Or.inl hid
    rw [List.countP_eq_zero.mpr (by simpa using hfalse), map_ite_id db hfalse]
  · intro n hn hid hu
    unfold markAsRead updateWhere
    have : ({ n with isRead := true, readAt := some t } : Notification)
        = (fun m => if (m.id == i && m.recipientId == u) = true then
            { m with isRead := true, readAt := some t } else m) n := by
      simp [hid, hu]
    rw [this]
    exact List.mem_map_of_mem _ hn
  · rw [markAsRead_fst, markAsRead_snd, markAsRead_fst]
    exact countP_map_of_pres
      (fun n => by
        by_cases h : (n.id == i && n.recipientId == u) = true
        · rw [if_pos h]
        · rw [if_neg h]) db
  · rw [markAsRead_snd, markAsRead_snd db i u t, markAsRead_snd]
    exact @map_ite_comp (fun n => n.id == i && n.recipientId == u)
      (fun n => { n with isRead := true, readAt := some t })
      (fun n => { n with isRead := true, readAt := some t' })
      (fun n => rfl) (fun n _ => rfl) db

/-- C2, witness: the contract applied to the one-row table `[readNotif]`. -/
theorem c2_markRead_contract_witness :
    (markAsRead (markAsRead [readNotif] 1 2 9).2 1 2 11).2
      = (markAsRead [readNotif] 1 2 11).2 :=
  (c2_markRead_contract [readNotif] 1 2 9 11).2.2.2

/-- C7, counterexample.  The claim says calling `markDelivered` twice on the
same id changes neither `isDelivered` nor `deliveredAt`.  On the one-row
table `[freshNotif]`, a first call at time 3 and a second call at time 7
leave `isDelivered = true` but overwrite `deliveredAt` from `some 3` to
`some 7`: the second call is not a no-op. -/
theorem c7_markDelivered_overwrites_deliveredAt :
    ((markAsDelivered [freshNotif] 1 3).2).map Notification.deliveredAt
        = [some 3]
    ∧ ((markAsDelivered (markAsDelivered [freshNotif] 1 3).2 1 7).2).map
        Notification.deliveredAt = [some 7]
    ∧ (markAsDelivered (markAsDelivered [freshNotif] 1 3).2 1 7).2
        ≠ (markAsDelivered [freshNotif] 1 3).2 := by
  refine ⟨rfl, rfl, by decide⟩

/-- C7 (amended): `markAsRead` modifies nothing outside the
(`isRead`, `readAt`) pair and `markAsDelivered` nothing outside the
(`isDelivered`, `deliveredAt`) pair; a repeated `markAsDelivered` is not an
error (it reports the same affected count) and leaves `isDelivered = true`,
and repeating it at the same timestamp is a no-op — but a repeat at a later
timestamp overwrites `deliveredAt` with the later time, so the pair is not
settable exactly once. -/
theorem c7_set_once_pairs (db : List Notification) (i u : Nat) (t t' : Int) :
    ((markAsRead db i u t).2).map stripRead = db.map stripRead
    ∧ ((markAsDelivered db i t).2).map stripDelivery = db.map stripDelivery
    ∧ (markAsDelivered (markAsDelivered db i t).2 i t').1
        = (markAsDelivered db i t).1
    ∧ (markAsDelivered (markAsDelivered db i t).2 i t).2
        = (markAsDelivered db i t).2
    ∧ (markAsDelivered (markAsDelivered db i t).2 i t').2
        = (markAsDelivered db i t').2 := by
  refine ⟨?_, ?_, ?_, ?_, ?_⟩
  · rw [markAsRead_snd]
    exact map_map_pres
      (fun n => by
        by_cases h : (n.id == i && n.recipientId == u) = true
        · rw [if_pos h]; rfl
        · rw [if_neg h]) db
  · rw [markAsDelivered_snd]
    exact map_map_pres
      (fun n => by
        by_cases h : (n.id == i) = true
        · rw [if_pos h]; rfl
        · rw [if_neg h]) db
  · rw [markAsDelivered_fst, markAsDelivered_snd, markAsDelivered_fst]
    exact countP_map_of_pres
      (fun n => by
        by_cases h : (n.id == i) = true
        · rw [if_pos h]
        · rw [if_neg h]) db
  · rw [markAsDelivered_snd, markAsDelivered_snd db i t]
    exact @map_ite_comp (fun n => n.id == i)
      (fun n => { n with isDelivered := true, deliveredAt := some t })
      (fun n => { n with isDelivered := true, deliveredAt := some t })
      (fun n => rfl) (fun n _ => rfl) db
  · rw [markAsDelivered_snd, markAsDelivered_snd db i t,
      markAsDelivered_snd db i t']
    exact @map_ite_comp (fun n => n.id == i)
      (fun n => { n with isDelivered := true, deliveredAt := some t })
      (fun n => { n with isDelivered := true, deliveredAt := some t' })
      (fun n => rfl) (fun n _ => rfl) db

/-- C7, witness: repeating `markAsDelivered` at the same timestamp on the
one-row table `[freshNotif]` is a no-op. -/
theorem c7_set_once_pairs_witness :
    (markAsDelivered (markAsDelivered [freshNotif] 1 3).2 1 3).2
      = (markAsDelivered [freshNotif] 1 3).2 :=
  (c7_set_once_pairs [freshNotif] 1 2 3 3).2.2.2.1

/-- C10: the `PUT /read-all` handler updates only the rows of the recipient with
`isRead = false` — an already-read row is returned unchanged, `readAt`
included — its affected count equals `getUnreadCount`, and an immediately
repeated call matches zero rows and leaves the table unchanged. -/
theorem c10_markAllRead_idempotent (db : List Notification) (u : Nat)
    (ty : String) (t t' : Int) :
    (∀ n ∈ db, n.isRead = true → n ∈ (markAllRead db u ty t).2)
    ∧ (markAllRead db u ty t).1 = getUnreadCount db u ty
    ∧ markAllRead (markAllRead db u ty t).2 u ty t'
        = (0, (markAllRead db u ty t).2) := by
  have hzero : ∀ m ∈ (markAllRead db u ty t).2,
      (m.recipientId == u && m.recipientType == ty
        && m.isRead == false) = false := by
    intro m hm
    rw [markAllRead_snd] at hm
    obtain ⟨n, _, rfl⟩ := List.mem_map.mp hm
    by_cases hp : (n.recipientId == u && n.recipientType == ty
        && n.isRead == false) = true
    · rw [if_pos hp]
      simp
    · rw [if_neg hp]
      simpa using hp
  refine ⟨?_, rfl, ?_⟩
  · intro n hn hr
    rw [markAllRead_snd]
    refine List.mem_map.mpr ⟨n, hn, ?_⟩
    exact if_neg (by simp [hr])
  · have h1 : (markAllRead (markAllRead db u ty t).2 u ty t').1 = 0 := by
      rw [markAllRead_fst]
      exact List.countP_eq_zero.mpr (fun a ha => by
        rw [hzero a ha]
        exact Bool.false_ne_true)
    have h2 : (markAllRead (markAllRead db u ty t).2 u ty t').2
        = (markAllRead db u ty t).2 := by
      rw [markAllRead_snd]
      exact map_ite_id _ hzero
    exact Prod.ext h1 h2

/-- C10, witness: on a table holding one read and one unread row for
recipient 2, the repeated call reports zero affected rows and changes
nothing. -/
theorem c10_markAllRead_witness :
    markAllRead (markAllRead [readNotif, unreadNotif] 2 "facilitator" 20).2
        2 "facilitator" 21
      = (0, (markAllRead [readNotif, unreadNotif] 2 "facilitator" 20).2) :=
  (c10_markAllRead_idempotent [readNotif, unreadNotif] 2 "facilitator"
    20 21).2.2







/-- C8: the worker moves Stopped→Running on `start()` (scheduling a timer)
and Running→Stopped on `stop()` (cancelling the timer); `start()` while
Running is a warning-only no-op that creates no second timer, `stop()` while
Stopped is a warning-only no-op, and the `SIGTERM`/`SIGINT` handlers behave
exactly as `stop()`. -/
theorem c8_scheduler_state_machine (w : NotificationWorker) (tid : Nat) :
    (w.isRunning = true → NotificationWorker.start w tid = (w, true))
    ∧ (w.isRunning = false → NotificationWorker.start w tid
        = ({ isRunning := true, interval := some tid }, false))
    ∧ (w.isRunning = true → NotificationWorker.stop w
        = ({ isRunning := false, interval := none }, false))
    ∧ (w.isRunning = false → NotificationWorker.stop w = (w, true))
    ∧ NotificationWorker.onSigterm w = NotificationWorker.stop w
    ∧ NotificationWorker.onSigint w = NotificationWorker.stop w := by
  refine ⟨?_, ?_, ?_, ?_, rfl, rfl⟩ <;>
    intro h <;> simp [NotificationWorker.start, NotificationWorker.stop, h]

/-- C8, witness: the transitions evaluated on the stopped worker. -/
theorem c8_scheduler_witness :
    NotificationWorker.start { isRunning := false, interval := none } 7
      = ({ isRunning := true, interval := some 7 }, false) :=
  (c8_scheduler_state_machine { isRunning := false, interval := none } 7).2.1
    rfl

/-- C1: the claimed idempotency check does not exist in the code.  With one
active allocation (id 1) and no activity logs, running
`NotificationWorker.checkForNotifications` twice creates two distinct unread
`reminder` notifications for the same allocation: the sweep never consults
the Ledger for an existing unread reminder before `createNotification`, and
the reminder metadata carries no `weekNumber` at all. -/
theorem c1_sweep_creates_duplicate_reminders :
    ((checkForNotifications
        (checkForNotifications [] [allocA] [] (fun _ => none) 0)
        [allocA] [] (fun _ => none) 0).countP
      (fun n => n.type == "reminder" && n.isRead == false
        && n.relatedEntityId == some 1)) = 2 := by
  decide

/-- C3, counterexample.  Two overdue active allocations, both with current
activity logs; the first facilitator (10) has no manager, the second (20)
reports to manager 5.  The claim says the failure on the first allocation is
skipped and the second is still processed, so a deadline notification for
manager 5 should exist — but the sweep produces none: the TypeError on the
first allocation aborts the whole batch. -/
theorem c3_null_manager_aborts_batch :
    (checkForNotifications [] [allocA, allocB] logsB mgrOfB 700000000).countP
      (fun n => n.recipientId == 5 && n.recipientType == "manager") = 0
    ∧ checkForNotifications [] [allocA, allocB] logsB mgrOfB 700000000
        = [] := by
  refine ⟨by decide, by decide⟩

/-- C3 (amended): inside one sweep, a manager-lookup failure on one
allocation aborts the processing of every allocation after it in the batch
(the notifications already created for the allocations before it persist);
the error is caught at the sweep level, so the worker itself survives. -/
theorem c3_failure_aborts_remaining (db : List Notification)
    (pre rest : List Allocation) (a : Allocation)
    (managerOf : Nat → Option Nat) (now : Int)
    (hpre : ∀ b ∈ pre, (managerOf b.facilitatorId).isSome = true)
    (ha : managerOf a.facilitatorId = none) :
    sendDeadlineAlertToManagers db (pre ++ a :: rest) managerOf now
      = ((sendDeadlineAlertToManagers db pre managerOf now).1, true) := by
  induction pre generalizing db with
  | nil => simp [sendDeadlineAlertToManagers, ha]
  | cons b pre ih =>
      obtain ⟨m, hm⟩ := Option.isSome_iff_exists.mp (hpre b (by simp))
      simp only [List.cons_append, sendDeadlineAlertToManagers, hm]
      exact ih _ (fun x hx => hpre x (by simp [hx]))

/-- C3, witness: the abort evaluated with `allocB` (has a manager) before
the failing `allocA` (no manager) and one more allocation behind it. -/
theorem c3_failure_witness :
    sendDeadlineAlertToManagers [] ([allocB] ++ allocA :: [allocB]) mgrOfB 0
      = ((sendDeadlineAlertToManagers [] [allocB] mgrOfB 0).1, true) :=
  c3_failure_aborts_remaining [] [allocB] [allocB] allocA mgrOfB 0
    (by decide) (by decide)

/-- C4: for an active allocation with no active activity log for the current
week, a single `checkOverdueLogs` sweep enqueues the facilitator reminder
intent and, exactly when the current week exceeds the process-wide grace
threshold 2, also the manager alert intent; at week 1 only the reminder is
enqueued. -/
theorem c4_escalation_policy (a : Allocation) (logs : List ActivityLog)
    (elapsedMs : Nat) (now : Int)
    (ha : a.isActive = true)
    (hnc : logs.any (fun l => l.allocationId == a.id
        && l.weekNumber == currentWeek elapsedMs && l.isActive) = false) :
    checkOverdueLogs [a] logs elapsedMs now
      = { type := "REMINDER_FACILITATOR", facilitatorId := a.facilitatorId,
          allocationId := a.id, weekNumber := currentWeek elapsedMs,
          timestamp := now } ::
        (if 2 < currentWeek elapsedMs then
          [{ type := "ALERT_MANAGER", facilitatorId := a.facilitatorId,
             allocationId := a.id, weekNumber := currentWeek elapsedMs,
             timestamp := now }]
        else []) := by
  simp [checkOverdueLogs, ha, hnc]
  simpa using hnc

/-- C4, witness: at elapsed time 1 ms the week is 1 and only the reminder is
enqueued for `allocA`; at elapsed time `2*604800000 + 1` ms the week is 3 and
both the reminder and the manager alert are enqueued. -/
theorem c4_escalation_witness :
    checkOverdueLogs [allocA] [] 1 0
      = [{ type := "REMINDER_FACILITATOR", facilitatorId := 10,
           allocationId := 1, weekNumber := 1, timestamp := 0 }]
    ∧ checkOverdueLogs [allocA] [] 1209600001 0
      = [{ type := "REMINDER_FACILITATOR", facilitatorId := 10,
           allocationId := 1, weekNumber := 3, timestamp := 0 },
         { type := "ALERT_MANAGER", facilitatorId := 10,
           allocationId := 1, weekNumber := 3, timestamp := 0 }] := by
  constructor
  · rw [c4_escalation_policy allocA [] 1 0 rfl rfl]
    decide
  · rw [c4_escalation_policy allocA [] 1209600001 0 rfl rfl]
    decide

/-- C9, counterexample.  At the exact start-of-year instant (elapsed 0 ms)
the formula `Math.ceil(elapsed / weekMs)` yields week 0, and a sweep run at
that instant emits an intent with `weekNumber = 0` — the claimed "always at
least 1" fails there. -/
theorem c9_week_zero_at_year_start :
    currentWeek 0 = 0
    ∧ (checkOverdueLogs [allocA] [] 0 0).map Intent.weekNumber = [0] := by
  refine ⟨rfl, by decide⟩

/-- C9 (amended): for every instant strictly after the start of the calendar
year the computed week number is at least 1 (it is 0 only at the exact start
instant), and every intent a sweep emits comes from an allocation with
`isActive = true` and carries the id of that allocation and the computed week. -/
theorem c9_week_numbering (allocs : List Allocation)
    (logs : List ActivityLog) (elapsedMs : Nat) (now : Int) (e : Nat)
    (he : 0 < e) :
    1 ≤ currentWeek e
    ∧ ∀ i ∈ checkOverdueLogs allocs logs elapsedMs now,
        ∃ a, a ∈ allocs ∧ a.isActive = true ∧ i.allocationId = a.id
          ∧ i.weekNumber = currentWeek elapsedMs := by
  constructor
  · unfold currentWeek
    omega
  · intro i hi
    simp only [checkOverdueLogs, List.mem_flatMap, List.mem_filter] at hi
    obtain ⟨a, ⟨hal, hact⟩, hmem⟩ := hi
    refine ⟨a, hal, hact, ?_⟩
    split at hmem
    · exact absurd hmem (List.not_mem_nil i)
    · rcases List.mem_cons.mp hmem with h | h
      · subst h
        exact ⟨rfl, rfl⟩
      · split at h
        · rw [List.mem_singleton.mp h]
          exact ⟨rfl, rfl⟩
        · exact absurd h (List.not_mem_nil i)

/-- C9, witness: 1 ms into the year the computed week is at least 1. -/
theorem c9_week_numbering_witness : 1 ≤ currentWeek 1 :=
  (c9_week_numbering [] [] 0 0 1 (by decide)).1

/-- Dispatch environment whose mail transport fails. -/
def failEnv : DispatchEnv :=
  { facilitators := [{ id := 10, name := "Fay", email := "fay@x" }],
    allocations := [allocA],
    managerOfAllocation := fun _ => none,
    transportOk := false }

/-- A system state with one queued reminder intent and one Ledger row. -/
def queuedState : SystemState :=
  { queue := [{ type := "REMINDER_FACILITATOR", facilitatorId := 10,
                allocationId := 1, weekNumber := 1, timestamp := 0 }],
    db := [freshNotif],
    sentEmails := [] }

/-- C5: when the mail transport fails, a dispatcher tick leaves the Ledger
exactly as it was — nothing is deleted, no `isRead`/`isDelivered` flag moves,
and `markAsDelivered` is not invoked — while the popped intent is removed
from the queue and not requeued; every email attempted in the tick reports
failure. -/
theorem c5_transport_failure_leaves_ledger (env : DispatchEnv)
    (st : SystemState) (hfail : env.transportOk = false) :
    (drainTick env st).db = st.db
    ∧ (drainTick env st).queue = st.queue.dropLast
    ∧ ∀ e ∈ (drainTick env st).sentEmails.drop st.sentEmails.length,
        e.success = false := by
  have hdb : (drainTick env st).db = st.db := by
    unfold drainTick
    cases hq : st.queue.getLast? <;> simp [hq]
  have hqu : (drainTick env st).queue = st.queue.dropLast := by
    unfold drainTick
    cases hq : st.queue.getLast? with
    | none =>
        have hnil : st.queue = [] := by
          cases hc : st.queue with
          | nil => rfl
          | cons x xs => rw [hc] at hq; simp at hq
        simp [hq, hnil]
    | some i => simp [hq]
  refine ⟨hdb, hqu, ?_⟩
  unfold drainTick
  cases hq : st.queue.getLast? with
  | none => simp [hq]
  | some i =>
      simp only [hq]
      intro e he
      rw [List.drop_left] at he
      rw [processNotification_success env i e he, hfail]

/-- C5, witness: a failing tick on `queuedState` leaves the Ledger unchanged
and consumes the queued intent without requeuing it. -/
theorem c5_transport_failure_witness :
    (drainTick failEnv queuedState).db = queuedState.db
    ∧ (drainTick failEnv queuedState).queue
        = queuedState.queue.dropLast :=
  ⟨(c5_transport_failure_leaves_ledger failEnv queuedState rfl).1,
   (c5_transport_failure_leaves_ledger failEnv queuedState rfl).2.1⟩

